import Mathlib

/-!
Verification of the output stage of the sqlboiler code generator
(`boilingcore/output.go`): per-entity and singleton file assembly,
template execution with panic recovery, buffer formatting with
line-excerpt diagnostics, and file persistence.

Shallow embedding conventions:
* the shared `templateByteBuffer` is threaded explicitly as a `String`
  argument and result;
* file-system effects are returned as a list of `FileWrite` events;
* the Go standard library collaborators (`format.Source`,
  `ioutil.WriteFile`) are oracles supplied in a `GoEnv`;
* Go `error` values are `Option String` / `Except String` carrying the
  error message text (`pkg/errors` wrapping `Wrap(err, m)` yields
  `m ++ ": " ++ err`).
-/

namespace importers

/-- `importers.Set`: two tiers of imports, standard library and third
party (declared in the repository's `importers` package, used by
`output.go`). -/
structure Set where
  Standard : List String
  ThirdParty : List String
deriving DecidableEq, Repr

/-- `importers.Map`: a map from name to import set.  Modelled as an
association list; absent keys yield the Go zero value (the empty set). -/
def Map := List (String × Set)

/-- Go map indexing `m[k]`: the value for `k`, or the zero value when
`k` is absent. -/
def mapFind (m : Map) (k : String) : Set :=
  match m.find? (fun p => p.1 = k) with
  | some p => p.2
  | none => ⟨[], []⟩

/-- Insertion into a sorted list of strings, used to give the
merged import set the canonical sort order the spec requires. -/
def insertSorted (a : String) : List String → List String
  | [] => [a]
  | b :: rest => if a ≤ b then a :: b :: rest else b :: insertSorted a rest

/-- Deduplicate and canonically sort one tier of imports. -/
def sortDedup (l : List String) : List String :=
  l.dedup.foldr insertSorted []

/-- Modelled from the spec: `importers.AddTypeImports` (repository code
outside the visible slice).  "merge(base, typeBasedRules, columnTypes)
returns a new set containing base's core+external imports plus, for
every distinct column type present in columnTypes, the extra imports
registered for that type.  Duplicate imports across sources must
collapse to one occurrence", each tier "unique, each in a canonical
sort order". -/
def AddTypeImports (base : Set) (basedOnType : Map) (colTypes : List String) : Set :=
  let merged := colTypes.dedup.foldl
    (fun acc t =>
      let ex := mapFind basedOnType t
      ⟨acc.Standard ++ ex.Standard, acc.ThirdParty ++ ex.ThirdParty⟩)
    base
  ⟨sortDedup merged.Standard, sortDedup merged.ThirdParty⟩

/-- Modelled from the spec: `importers.Set.Format` (repository code
outside the visible slice).  "format(ImportSet) -> string renders both
tiers as import-declaration text; an empty set renders to an empty
string". -/
def Set.Format (s : Set) : String :=
  if s.Standard.isEmpty && s.ThirdParty.isEmpty then ""
  else
    "import (\n"
      ++ String.join ((s.Standard ++ s.ThirdParty).map (fun i => "\t\x22" ++ i ++ "\x22\n"))
      ++ ")"

end importers

namespace boilingcore

/-- A table column as seen by `output.go`: only its type string is
consumed (for type-based import augmentation).  `Type'` embeds the Go
field `Type`. -/
structure Column where
  Name : String
  Type' : String
deriving DecidableEq, Repr

/-- The entity (table) descriptor fields consumed by `output.go`. -/
structure Table where
  Name : String
  Columns : List Column
  IsJoinTable : Bool
deriving DecidableEq, Repr

/-- The template data context; `output.go` consumes only its `Table`
field. -/
structure templateData where
  Table : Table
deriving DecidableEq, Repr

/-- One template-rendering step of Go's `text/template`
`ExecuteTemplate`: it may append output and succeed, return an error
after appending a partial prefix, or panic after appending a partial
prefix.  The payload strings are the rendered text, the error message,
and the formatted panic value respectively. -/
inductive RenderResult where
  | ok (output : String)
  | goError (written : String) (msg : String)
  | panicked (written : String) (payload : String)
deriving DecidableEq, Repr

/-- The executable side of a template set: what running a named
template against a data context does. -/
def TemplateExec := String → templateData → RenderResult

/-- `templateList` (declared in the repository's `templates.go`):
`Templates` is the ordered list of template names, `Template` executes
one by name. -/
structure templateList where
  Templates : List String
  Template : TemplateExec

/-- `importers.Collection`: the import registry fields consumed by
`output.go`. -/
structure Collection where
  All : importers.Set
  Test : importers.Set
  Singleton : importers.Map
  TestSingleton : importers.Map
  BasedOnType : importers.Map

/-- The configuration fields consumed by `output.go`. -/
structure Config where
  PkgName : String
  OutFolder : String
  Imports : Collection

/-- The generator state fields consumed by `output.go`. -/
structure State where
  Config : Config
  Templates : templateList
  TestTemplates : templateList
  SingletonTemplates : templateList
  SingletonTestTemplates : templateList

/-- `executeTemplateData` from `output.go`; unset fields of the Go
struct literal default to zero values. -/
structure executeTemplateData where
  state : State
  data : templateData
  templates : templateList
  importSet : importers.Set := ⟨[], []⟩
  importNamedSet : importers.Map := []
  combineImportsOnType : Bool := false
  fileSuffix : String := ""

/-- A completed file-system write: path, bytes, permission bits. -/
structure FileWrite where
  path : String
  content : String
  perm : Nat
deriving DecidableEq, Repr

/-- The observable outcome of one assembly call: final contents of the
shared `templateByteBuffer`, the file writes performed, and the
returned error (if any). -/
structure GenResult where
  buf : String
  writes : List FileWrite
  err : Option String
deriving DecidableEq, Repr

/-- The external collaborators of `output.go`: `go/format.Source`
(returning formatted bytes or an error message) and the
`testHarnessWriteFile` file writer (returning an error message on
failure), both oracles of the environment. -/
structure GoEnv where
  formatSource : String → Except String String
  testHarnessWriteFile : String → String → Nat → Option String

/-- The `noEditDisclaimer` banner: two comment lines then a blank
line. -/
def noEditDisclaimer : String :=
  "// Code generated by SQLBoiler (https://github.com/volatiletech/sqlboiler). DO NOT EDIT.\n// This file is meant to be re-generated in place and/or deleted at any time.\n\n"

/-- `path/filepath.Join` for the slash-free clean components
`output.go` passes it (an output folder and a bare file name). -/
def filepathJoin (a b : String) : String :=
  if a.isEmpty then b else a ++ "/" ++ b

/-- Helper for `filepathExt`: walk the reversed character list,
accumulating the characters after the last dot; stop empty at a path
separator. -/
def extFromRev (acc : List Char) : List Char → String
  | [] => ""
  | c :: rest =>
    if c = '/' then ""
    else if c = '.' then String.mk ('.' :: acc)
    else extFromRev (c :: acc) rest

/-- `path/filepath.Ext`: the suffix beginning at the final dot in the
final slash-separated element; empty if there is no dot. -/
def filepathExt (path : String) : String :=
  extFromRev [] path.data.reverse

/-- `rgxRemoveNumberedPrefix.ReplaceAllString(s, "")` for the anchored
pattern of one-or-more digits followed by an underscore: strip the
leading maximal digit run when an underscore follows it (the anchor
admits at most one replacement, at position zero). -/
def rgxRemoveNumberedPrefixReplace (s : String) : String :=
  let ds := s.data.takeWhile Char.isDigit
  match ds, s.data.drop ds.length with
  | _ :: _, '_' :: rest => String.mk rest
  | _, _ => s

/-- The singleton output filename derivation of
`executeSingletonTemplates`: strip the filename extension (the Go
slice `fName[:len(fName)-len(ext)]`, taken here at character level —
the two agree since `filepathExt` returns a literal suffix), then the
numbered ordering prefix. -/
def singletonFileName (tplName : String) : String :=
  let ext := filepathExt tplName
  rgxRemoveNumberedPrefixReplace
    (String.mk (tplName.data.take (tplName.data.length - ext.data.length)))

/-- Matching the pattern of `rgxSyntaxError` (digit run, colon, digit
run, colon, space) at the head of a character list; returns the first
capture group (the first digit run).  At a fixed start the match is
deterministic: each digit run must be maximal, since shortening one
leaves a digit where a colon is required. -/
def matchSyntaxAt (cs : List Char) : Option (List Char) :=
  let d1 := cs.takeWhile Char.isDigit
  if d1.isEmpty then none
  else
    match cs.drop d1.length with
    | ':' :: r2 =>
      let d2 := r2.takeWhile Char.isDigit
      if d2.isEmpty then none
      else
        match r2.drop d2.length with
        | ':' :: c :: _ => if c = Char.ofNat 32 then some d1 else none
        | _ => none
    | _ => none

/-- Leftmost-match scan for `rgxSyntaxError`: try each start position
from the left. -/
def rgxSyntaxErrorFindAux : List Char → Option (List Char)
  | [] => none
  | c :: rest =>
    match matchSyntaxAt (c :: rest) with
    | some d => some d
    | none => rgxSyntaxErrorFindAux rest

/-- `rgxSyntaxError.FindStringSubmatch(s)[1]`: the digit run of the
first (leftmost) `line:column: ` occurrence, if any. -/
def rgxSyntaxErrorFind (s : String) : Option String :=
  (rgxSyntaxErrorFindAux s.data).map String.mk

/-- `strconv.Atoi` on the captured digit run (digits only, so the
parse always succeeds; the value is taken as an unbounded natural). -/
def atoi (s : String) : Nat :=
  s.data.foldl (fun n c => n * 10 + (c.toNat - 48)) 0

/-- `bufio.ScanLines` drops one trailing carriage return from each
line. -/
def dropCR (l : String) : String :=
  if l.endsWith "\r" then l.dropRight 1 else l

/-- The sequence of lines a `bufio.Scanner` with `ScanLines` yields on
the buffer: split at newlines, do not yield a final empty token after
a terminating newline, drop carriage returns. -/
def scanLines (s : String) : List String :=
  if s.isEmpty then []
  else
    let parts := s.splitOn "\n"
    let parts := if s.endsWith "\n" then parts.dropLast else parts
    parts.map dropCR

/-- `fmt.Fprintf(errBuf, "% 4d ", line)`: the line number preceded by
the sign-position space, right-aligned to width four, followed by a
space. -/
def fmtLineNo (line : Nat) : String :=
  let s := " " ++ toString line
  String.mk (List.replicate (4 - s.length) ' ') ++ s ++ " "

/-- The skip condition of the excerpt loop: `delta := line - lineNum;
delta < -5 || delta > 5` (Go signed arithmetic, hence the cast to
`Int`). -/
def outsideWindow (lineNum line : Nat) : Bool :=
  (line : Int) - (lineNum : Int) < -5 || (line : Int) - (lineNum : Int) > 5

/-- The excerpt-building scanner loop of `formatBuffer`: walk the
buffer lines with a 1-based counter, skipping lines more than five
away from the failing line, marking the failing line with `>>>> ` and
every other emitted line with its right-aligned number. -/
def excerptLoop (lineNum : Nat) : Nat → List String → String
  | _, [] => ""
  | line, l :: rest =>
    let piece :=
      if outsideWindow lineNum line then ""
      else (if line = lineNum then ">>>> " else fmtLineNo line) ++ l ++ "\n"
    piece ++ excerptLoop lineNum (line + 1) rest

/-- `formatBuffer`: run the formatter; on failure, if the error
message carries a `line:column: ` position, wrap it together with the
line excerpt, otherwise wrap it generically. -/
def formatBuffer (formatSource : String → Except String String) (buf : String) :
    Except String String :=
  match formatSource buf with
  | .ok output => .ok output
  | .error errMsg =>
    match rgxSyntaxErrorFind errMsg with
    | none => .error ("failed to format template: " ++ errMsg)
    | some digits =>
      let lineNum := atoi digits
      let errBuf := excerptLoop lineNum 1 (scanLines buf)
      .error ("failed to format template\n\n" ++ errBuf ++ "\n: " ++ errMsg)

/-- `writeFile`: format the buffer; on success write the formatted
bytes (mode 0666) to the joined path, wrapping a file-system failure
with the path.  The write events performed are returned alongside the
error. -/
def writeFile (env : GoEnv) (outFolder : String) (fileName : String) (input : String) :
    List FileWrite × Option String :=
  match formatBuffer env.formatSource input with
  | .error err => ([], some err)
  | .ok byt =>
    let path := filepathJoin outFolder fileName
    match env.testHarnessWriteFile path byt 438 with
    | some fsErr => ([], some ("failed to write output file " ++ path ++ ": " ++ fsErr))
    | none => ([⟨path, byt, 438⟩], none)

/-- `executeTemplate`: run one named template into the buffer; a
returned error is wrapped with the template name, and a panic is
recovered and converted into an error carrying the template name and
the panic payload. -/
def executeTemplate (buf : String) (t : TemplateExec) (name : String) (data : templateData) :
    String × Option String :=
  match t name data with
  | .ok output => (buf ++ output, none)
  | .goError written msg =>
    (buf ++ written, some ("failed to execute template: " ++ name ++ ": " ++ msg))
  | .panicked written payload =>
    (buf ++ written, some ("failed to execute template: " ++ name ++ "\npanic: " ++ payload ++ "\n"))

/-- `writeFileDisclaimer`: append the banner to the buffer. -/
def writeFileDisclaimer (out : String) : String :=
  out ++ noEditDisclaimer

/-- `writePackageName`: append `package <name>` and a blank line. -/
def writePackageName (out : String) (pkgName : String) : String :=
  out ++ "package " ++ pkgName ++ "\n\n"

/-- `writeImports`: append the formatted import block and a newline,
but only when the set formats to a non-empty string. -/
def writeImports (out : String) (imps : importers.Set) : String :=
  let impStr := imps.Format
  if impStr.length > 0 then out ++ impStr ++ "\n" else out

/-- The template loop of `executeTemplates`: execute each named
template in order into the buffer, stopping at the first failure. -/
def runTemplates (buf : String) (t : TemplateExec) (names : List String)
    (data : templateData) : String × Option String :=
  match names with
  | [] => (buf, none)
  | n :: rest =>
    match executeTemplate buf t n data with
    | (buf2, some e) => (buf2, some e)
    | (buf2, none) => runTemplates buf2 t rest data

/-- `executeTemplates`: the per-entity assembly.  `buf0` is the prior
content of the shared `templateByteBuffer`. -/
def executeTemplates (env : GoEnv) (e : executeTemplateData) (buf0 : String) : GenResult :=
  if e.data.Table.IsJoinTable then ⟨buf0, [], none⟩
  else
    let out := ""
    let imps : importers.Set := ⟨e.importSet.Standard, e.importSet.ThirdParty⟩
    let imps :=
      if e.combineImportsOnType then
        importers.AddTypeImports imps e.state.Config.Imports.BasedOnType
          (e.data.Table.Columns.map (fun ct => ct.Type'))
      else imps
    let out := writeFileDisclaimer out
    let out := writePackageName out e.state.Config.PkgName
    let out := writeImports out imps
    match runTemplates out e.templates.Template e.templates.Templates e.data with
    | (out2, some err) => ⟨out2, [], some err⟩
    | (out2, none) =>
      let fName := e.data.Table.Name ++ e.fileSuffix
      let (ws, werr) := writeFile env e.state.Config.OutFolder fName out2
      ⟨out2, ws, werr⟩

/-- The per-template loop of `executeSingletonTemplates`: reset the
buffer, derive the filename, look up the named import set, assemble,
execute, write; stop at the first failure. -/
def singletonLoop (env : GoEnv) (e : executeTemplateData) (buf : String) :
    List String → GenResult
  | [] => ⟨buf, [], none⟩
  | tplName :: rest =>
    let out := ""
    let fName := singletonFileName tplName
    let imps : importers.Set :=
      ⟨(importers.mapFind e.importNamedSet fName).Standard,
        (importers.mapFind e.importNamedSet fName).ThirdParty⟩
    let out := writeFileDisclaimer out
    let out := writePackageName out e.state.Config.PkgName
    let out := writeImports out imps
    match executeTemplate out e.templates.Template tplName e.data with
    | (out2, some err) => ⟨out2, [], some err⟩
    | (out2, none) =>
      match writeFile env e.state.Config.OutFolder (fName ++ e.fileSuffix) out2 with
      | (ws, some werr) => ⟨out2, ws, some werr⟩
      | (ws, none) =>
        let r := singletonLoop env e out2 rest
        ⟨r.buf, ws ++ r.writes, r.err⟩

/-- `executeSingletonTemplates`: one output file per singleton
template. -/
def executeSingletonTemplates (env : GoEnv) (e : executeTemplateData) (buf0 : String) :
    GenResult :=
  if e.data.Table.IsJoinTable then ⟨buf0, [], none⟩
  else singletonLoop env e buf0 e.templates.Templates

/-- `generateOutput`: per-entity generated file (`.go`), with
type-based import augmentation on. -/
def generateOutput (env : GoEnv) (state : State) (data : templateData) (buf0 : String) :
    GenResult :=
  executeTemplates env
    { state := state
      data := data
      templates := state.Templates
      importSet := state.Config.Imports.All
      combineImportsOnType := true
      fileSuffix := ".go" } buf0

/-- `generateTestOutput`: per-entity test file (`_test.go`),
type-based import augmentation off. -/
def generateTestOutput (env : GoEnv) (state : State) (data : templateData) (buf0 : String) :
    GenResult :=
  executeTemplates env
    { state := state
      data := data
      templates := state.TestTemplates
      importSet := state.Config.Imports.Test
      combineImportsOnType := false
      fileSuffix := "_test.go" } buf0

/-- `generateSingletonOutput`: singleton generated files (`.go`). -/
def generateSingletonOutput (env : GoEnv) (state : State) (data : templateData) (buf0 : String) :
    GenResult :=
  executeSingletonTemplates env
    { state := state
      data := data
      templates := state.SingletonTemplates
      importNamedSet := state.Config.Imports.Singleton
      fileSuffix := ".go" } buf0

/-- `generateSingletonTestOutput`: singleton test files; the source
passes the plain `.go` suffix here. -/
def generateSingletonTestOutput (env : GoEnv) (state : State) (data : templateData)
    (buf0 : String) : GenResult :=
  executeSingletonTemplates env
    { state := state
      data := data
      templates := state.SingletonTestTemplates
      importNamedSet := state.Config.Imports.TestSingleton
      fileSuffix := ".go" } buf0

/-! Declarative (specification-side) descriptions, to be compared with
the loop-shaped source translations above. -/

/-- Concatenation of a list of strings, in order. -/
def concatAll : List String → String
  | [] => ""
  | s :: rest => s ++ concatAll rest

/-- Pair each list element with its position, counting from `k`. -/
def enumFrom {α : Type} (k : Nat) : List α → List (Nat × α)
  | [] => []
  | a :: rest => (k, a) :: enumFrom (k + 1) rest

/-- The diagnostic fragment contributed by the numbered line `p`:
nothing when it is more than five lines from the failing line,
otherwise the line prefixed by `>>>> ` (failing line) or its
right-aligned number. -/
def excerptPiece (lineNum : Nat) (p : Nat × String) : Option String :=
  if outsideWindow lineNum p.1 then none
  else some ((if p.1 = lineNum then ">>>> " else fmtLineNo p.1) ++ p.2 ++ "\n")

/-- Declarative description of the excerpt: exactly the buffer lines
whose 1-based number is within distance five of the failing line, each
with its prefix, in order. -/
def excerptWindow (lineNum : Nat) (lines : List String) : String :=
  concatAll ((enumFrom 1 lines).filterMap (excerptPiece lineNum))

/-- The text a template appends to the buffer (for a successful
rendering, its output). -/
def renderedText (t : TemplateExec) (data : templateData) (n : String) : String :=
  match t n data with
  | .ok output => output
  | .goError written _ => written
  | .panicked written _ => written

/-- The effective import set of a per-entity assembly call: the base
set, widened by the entity's column types when the call enables
type-based augmentation. -/
def effImports (e : executeTemplateData) : importers.Set :=
  if e.combineImportsOnType then
    importers.AddTypeImports ⟨e.importSet.Standard, e.importSet.ThirdParty⟩
      e.state.Config.Imports.BasedOnType (e.data.Table.Columns.map (fun ct => ct.Type'))
  else ⟨e.importSet.Standard, e.importSet.ThirdParty⟩

/-- Replace the type-based import augmentation rules of a state. -/
def withBasedOnType (st : State) (m : importers.Map) : State :=
  { st with Config := { st.Config with Imports := { st.Config.Imports with BasedOnType := m } } }

/-! Concrete fixtures used by the witness and counterexample
theorems. -/

/-- An environment whose formatter accepts every buffer unchanged and
whose file system accepts every write. -/
def exEnv : GoEnv := ⟨fun s => .ok s, fun _ _ _ => none⟩

/-- One singleton template rendering a fixed body. -/
def exTemplates : templateList := ⟨["one.tmpl"], fun _ _ => .ok "// body\n"⟩

/-- A template whose rendering panics. -/
def exPanicTemplates : templateList :=
  ⟨["boom.tmpl"], fun _ _ => .panicked "// partial" "runtime error: index out of range"⟩

/-- An empty import registry. -/
def exCollection : Collection :=
  { All := ⟨[], []⟩
    Test := ⟨[], []⟩
    Singleton := []
    TestSingleton := []
    BasedOnType := [] }

/-- A small configuration. -/
def exConfig : Config := { PkgName := "models", OutFolder := "out", Imports := exCollection }

/-- A small state whose template sets all consist of `one.tmpl`. -/
def exState : State :=
  { Config := exConfig
    Templates := exTemplates
    TestTemplates := exTemplates
    SingletonTemplates := exTemplates
    SingletonTestTemplates := exTemplates }

/-- A non-join entity with two columns. -/
def exData : templateData := ⟨⟨"users", [⟨"id", "int"⟩, ⟨"email", "string"⟩], false⟩⟩

/-- A join-table entity. -/
def exJoinData : templateData := ⟨⟨"user_videos", [], true⟩⟩

/-- An assembly request whose single template panics. -/
def exPanicCall : executeTemplateData :=
  { state := exState
    data := exData
    templates := exPanicTemplates
    fileSuffix := ".go" }

/-- An assembly request for a join table. -/
def exJoinCall : executeTemplateData :=
  { state := exState
    data := exJoinData
    templates := exTemplates
    fileSuffix := ".go" }

/-- An assembly request whose single template succeeds. -/
def exOkCall : executeTemplateData :=
  { state := exState
    data := exData
    templates := exTemplates
    importSet := ⟨["fmt"], []⟩
    combineImportsOnType := false
    fileSuffix := ".go" }

/-- A formatter that always reports a syntax error at line 42. -/
def exSyntaxFS : String → Except String String :=
  fun _ => Except.error "42:13: expected declaration"

/-- A sixty-line buffer. -/
def exBigBuf : String :=
  concatAll ((List.range 60).map (fun i => "line " ++ toString (i + 1) ++ "\n"))

/-- An environment whose formatter fails with a message carrying no
line position. -/
def exGenericErrEnv : GoEnv :=
  ⟨fun _ => .error "format failure without position", fun _ _ _ => none⟩

/-- A type-based import rule: string columns need the `strings`
package. -/
def exTypedState : State := withBasedOnType exState [("string", ⟨["strings"], []⟩)]

end boilingcore

namespace boilingcore

/-! Helper lemmas. -/

theorem str_empty_append (s : String) : "" ++ s = s := by
  apply String.ext; simp [String.data_append]

theorem writeFile_writes_or_err (env : GoEnv) (outFolder fileName input : String) :
    (writeFile env outFolder fileName input).1 = []
      ∨ (writeFile env outFolder fileName input).2 = none := by
  unfold writeFile
  split
  · exact Or.inl rfl
  · dsimp only
    split
    · exact Or.inl rfl
    · exact Or.inr rfl

theorem executeTemplates_writes_or_err (env : GoEnv) (e : executeTemplateData) (buf0 : String) :
    (executeTemplates env e buf0).writes = [] ∨ (executeTemplates env e buf0).err = none := by
  unfold executeTemplates
  split
  · exact Or.inl rfl
  · dsimp only
    split
    · exact Or.inl rfl
    · rename_i out2 hrun
      dsimp only
      exact writeFile_writes_or_err env e.state.Config.OutFolder
        (e.data.Table.Name ++ e.fileSuffix) out2

theorem singletonLoop_writes_err_indep (env : GoEnv) (e : executeTemplateData)
    (names : List String) (b1 b2 : String) :
    (singletonLoop env e b1 names).writes = (singletonLoop env e b2 names).writes
      ∧ (singletonLoop env e b1 names).err = (singletonLoop env e b2 names).err := by
  cases names with
  | nil => exact ⟨rfl, rfl⟩
  | cons n rest => simp [singletonLoop]

theorem str_append_empty (s : String) : s ++ "" = s := by
  apply String.ext; simp [String.data_append]

theorem writeFileDisclaimer_empty : writeFileDisclaimer "" = noEditDisclaimer :=
  str_empty_append noEditDisclaimer

theorem writePackageName_shape (out pkgName : String) :
    writePackageName out pkgName = out ++ ("package " ++ pkgName ++ "\n\n") := by
  unfold writePackageName
  simp [String.append_assoc]

theorem writeImports_shape (out : String) (imps : importers.Set) :
    writeImports out imps
      = out ++ (if imps.Format.length > 0 then imps.Format ++ "\n" else "") := by
  unfold writeImports
  by_cases h : imps.Format.length > 0
  · simp [h, String.append_assoc]
  · simp [h, str_append_empty]

theorem runTemplates_all_ok (t : TemplateExec) (data : templateData) :
    ∀ (names : List String) (buf : String),
      (∀ n ∈ names, ∃ output, t n data = .ok output) →
      runTemplates buf t names data
        = (buf ++ concatAll (names.map (renderedText t data)), none) := by
  intro names
  induction names with
  | nil =>
    intro buf _
    simp [runTemplates, concatAll, str_append_empty]
  | cons n rest ih =>
    intro buf h
    obtain ⟨output, ho⟩ := h n (by simp)
    simp only [runTemplates, executeTemplate, ho]
    rw [ih (buf ++ output) (fun m hm => h m (List.mem_cons_of_mem _ hm))]
    simp only [List.map_cons, concatAll, renderedText, ho, String.append_assoc]

theorem runTemplates_fst_prefix (t : TemplateExec) (data : templateData) :
    ∀ (names : List String) (buf : String),
      buf.data <+: (runTemplates buf t names data).1.data := by
  intro names
  induction names with
  | nil => intro buf; exact List.prefix_refl _
  | cons n rest ih =>
    intro buf
    simp only [runTemplates, executeTemplate]
    cases t n data with
    | ok output =>
      dsimp only
      have h1 : buf.data <+: (buf ++ output).data := by
        rw [String.data_append]
        exact (buf.data).prefix_append output.data
      exact h1.trans (ih (buf ++ output))
    | goError written msg =>
      dsimp only
      rw [String.data_append]
      exact (buf.data).prefix_append written.data
    | panicked written payload =>
      dsimp only
      rw [String.data_append]
      exact (buf.data).prefix_append written.data

theorem executeTemplates_buf_eq_fst (env : GoEnv) (e : executeTemplateData) (b : String)
    (hj : e.data.Table.IsJoinTable = false) :
    (executeTemplates env e b).buf
      = (runTemplates
          (writeImports (writePackageName (writeFileDisclaimer "") e.state.Config.PkgName)
            (if e.combineImportsOnType then
              importers.AddTypeImports ⟨e.importSet.Standard, e.importSet.ThirdParty⟩
                e.state.Config.Imports.BasedOnType
                (e.data.Table.Columns.map (fun ct => ct.Type'))
            else ⟨e.importSet.Standard, e.importSet.ThirdParty⟩))
          e.templates.Template e.templates.Templates e.data).1 := by
  cases hcomb : e.combineImportsOnType <;>
    (unfold executeTemplates
     simp only [hj, hcomb, Bool.false_eq_true, if_false, eq_self_iff_true, if_true]
     split
     · rename_i heq
       rw [heq]
     · rename_i heq
       rw [heq])

theorem executeTemplates_buf_head (env : GoEnv) (e : executeTemplateData) (b : String)
    (hj : e.data.Table.IsJoinTable = false) :
    (writeImports (writePackageName (writeFileDisclaimer "") e.state.Config.PkgName)
        (if e.combineImportsOnType then
          importers.AddTypeImports ⟨e.importSet.Standard, e.importSet.ThirdParty⟩
            e.state.Config.Imports.BasedOnType (e.data.Table.Columns.map (fun ct => ct.Type'))
        else ⟨e.importSet.Standard, e.importSet.ThirdParty⟩)).data
      <+: (executeTemplates env e b).buf.data := by
  rw [executeTemplates_buf_eq_fst env e b hj]
  exact runTemplates_fst_prefix e.templates.Template e.data e.templates.Templates _

theorem excerptLoop_eq_enumFrom (lineNum : Nat) (lines : List String) :
    ∀ k, excerptLoop lineNum k lines
      = concatAll ((enumFrom k lines).filterMap (excerptPiece lineNum)) := by
  induction lines with
  | nil => intro k; rfl
  | cons l rest ih =>
    intro k
    cases hc : outsideWindow lineNum k
    · simp [excerptLoop, enumFrom, excerptPiece, hc, ih (k + 1), concatAll]
    · simp [excerptLoop, enumFrom, excerptPiece, hc, ih (k + 1), str_empty_append]

theorem writeFile_paths (env : GoEnv) (outFolder fileName input : String) :
    (writeFile env outFolder fileName input).1.map FileWrite.path = []
      ∨ (writeFile env outFolder fileName input).1.map FileWrite.path
          = [filepathJoin outFolder fileName] := by
  unfold writeFile
  split
  · exact Or.inl rfl
  · dsimp only
    split
    · exact Or.inl rfl
    · exact Or.inr rfl

theorem executeTemplates_paths (env : GoEnv) (e : executeTemplateData) (b : String) :
    (executeTemplates env e b).writes.map FileWrite.path = []
      ∨ (executeTemplates env e b).writes.map FileWrite.path
          = [filepathJoin e.state.Config.OutFolder (e.data.Table.Name ++ e.fileSuffix)] := by
  unfold executeTemplates
  split
  · exact Or.inl rfl
  · dsimp only
    split
    · exact Or.inl rfl
    · rename_i out2 hrun
      dsimp only
      exact writeFile_paths env _ _ out2

theorem singletonLoop_paths (env : GoEnv) (e : executeTemplateData) :
    ∀ (names : List String) (b p : String),
      p ∈ (singletonLoop env e b names).writes.map FileWrite.path →
      p ∈ names.map
        (fun tpl =>
          filepathJoin e.state.Config.OutFolder (singletonFileName tpl ++ e.fileSuffix)) := by
  intro names
  induction names with
  | nil =>
    intro b p hp
    simp [singletonLoop] at hp
  | cons n rest ih =>
    intro b p hp
    simp only [singletonLoop] at hp
    split at hp
    · simp at hp
    · split at hp
      · rename_i ws werr heq
        rcases writeFile_paths env e.state.Config.OutFolder
            (singletonFileName n ++ e.fileSuffix) _ with h0 | h1
        · rw [heq] at h0
          simp only [h0] at hp
          simp at hp
        · rw [heq] at h1
          simp only [h1] at hp
          simp only [List.mem_singleton] at hp
          subst hp
          exact List.mem_cons_self _ _
      · rename_i ws heq
        simp only [List.map_append] at hp
        rcases List.mem_append.mp hp with h1 | h2
        · rcases writeFile_paths env e.state.Config.OutFolder
              (singletonFileName n ++ e.fileSuffix) _ with h0 | hpath
          · rw [heq] at h0
            simp only [h0] at h1
            simp at h1
          · rw [heq] at hpath
            simp only [hpath] at h1
            simp only [List.mem_singleton] at h1
            subst h1
            exact List.mem_cons_self _ _
        · exact List.mem_cons_of_mem _ (ih _ p h2)

/-- C1: for every per-entity assembly call, if an error is returned
(template execution failed, the buffer failed formatting, or the write
itself failed), then no file write was performed for that entity: file
persistence is all-or-nothing, and a partially valid buffer is never
persisted. -/
theorem executeTemplates_all_or_nothing (env : GoEnv) (e : executeTemplateData) (buf0 : String)
    (h : (executeTemplates env e buf0).err.isSome) :
    (executeTemplates env e buf0).writes = [] := by
  rcases executeTemplates_writes_or_err env e buf0 with hw | he
  · exact hw
  · rw [he] at h
    exact absurd h (by simp)

/-- Witness for C1: a per-entity call whose only template panics
returns an error and performs no file write. -/
theorem executeTemplates_all_or_nothing_witness :
    (executeTemplates exEnv exPanicCall "junk").writes = [] :=
  executeTemplates_all_or_nothing exEnv exPanicCall "junk" (by decide)

/-- C2: a panic raised while rendering a template is caught at the
`executeTemplate` boundary and converted into an ordinary error value
whose message carries the template's name and the captured panic
payload; the partially rendered text stays in the buffer, and the call
still returns normally. -/
theorem executeTemplate_recovers_panic (buf : String) (t : TemplateExec) (name : String)
    (data : templateData) (written payload : String)
    (h : t name data = .panicked written payload) :
    executeTemplate buf t name data =
      (buf ++ written,
        some ("failed to execute template: " ++ name ++ "\npanic: " ++ payload ++ "\n")) := by
  simp [executeTemplate, h]

/-- Witness for C2: an indexing fault inside a template becomes an
error value naming the template and the fault. -/
theorem executeTemplate_recovers_panic_witness :
    executeTemplate "header" (fun _ _ => .panicked "// cut" "runtime error: index out of range")
        "20_relations.tmpl" exData =
      ("header" ++ "// cut",
        some ("failed to execute template: " ++ "20_relations.tmpl" ++ "\npanic: "
          ++ "runtime error: index out of range" ++ "\n")) :=
  executeTemplate_recovers_panic "header" _ "20_relations.tmpl" exData "// cut"
    "runtime error: index out of range" rfl

/-- C5: an output request for an entity flagged as a join table is a
silent no-op on both assembly paths: the call returns immediately with
no error, performs no file write, executes no template, and leaves the
shared buffer untouched. -/
theorem joinTable_silent_noop (env : GoEnv) (e : executeTemplateData) (buf0 : String)
    (h : e.data.Table.IsJoinTable = true) :
    executeTemplates env e buf0 = ⟨buf0, [], none⟩
      ∧ executeSingletonTemplates env e buf0 = ⟨buf0, [], none⟩ := by
  constructor <;> simp [executeTemplates, executeSingletonTemplates, h]

/-- Witness for C5: a join-table request leaves everything alone. -/
theorem joinTable_silent_noop_witness :
    executeTemplates exEnv exJoinCall "prior" = ⟨"prior", [], none⟩
      ∧ executeSingletonTemplates exEnv exJoinCall "prior" = ⟨"prior", [], none⟩ :=
  joinTable_silent_noop exEnv exJoinCall "prior" rfl

/-- C9: assembly is deterministic across repeated runs: because the
shared output buffer is reset before each file assembly and every
pipeline step is a function of its inputs, the file writes and the
returned error of an assembly call do not depend on the buffer content
left over from earlier assemblies — so regenerating with the same
inputs produces byte-identical output. -/
theorem assembly_deterministic_regeneration (env : GoEnv) (e : executeTemplateData)
    (b1 b2 : String) :
    ((executeTemplates env e b1).writes = (executeTemplates env e b2).writes
      ∧ (executeTemplates env e b1).err = (executeTemplates env e b2).err)
    ∧ ((executeSingletonTemplates env e b1).writes = (executeSingletonTemplates env e b2).writes
      ∧ (executeSingletonTemplates env e b1).err
          = (executeSingletonTemplates env e b2).err) := by
  by_cases hj : e.data.Table.IsJoinTable
  · simp [executeTemplates, executeSingletonTemplates, hj]
  · constructor
    · simp [executeTemplates, hj]
    · simp only [executeSingletonTemplates, hj, if_false, Bool.false_eq_true]
      exact singletonLoop_writes_err_indep env e e.templates.Templates b1 b2

/-- C3: when formatting fails with a message embedding a
`line:column:` position, the returned diagnostic wraps the formatter's
message together with exactly the buffer lines whose 1-based number is
within distance five of the reported failing line (`excerptWindow`:
for a failure at line 42, the lines numbered 37 through 47 that
exist), the failing line prefixed `>>>> ` and every other included
line prefixed by its right-aligned line number. -/
theorem formatBuffer_line_window (fs : String → Except String String)
    (buf msg digits : String)
    (hfs : fs buf = .error msg)
    (hrx : rgxSyntaxErrorFind msg = some digits) :
    formatBuffer fs buf =
      .error ("failed to format template\n\n"
        ++ excerptWindow (atoi digits) (scanLines buf) ++ "\n: " ++ msg) := by
  unfold formatBuffer
  rw [hfs]
  dsimp only
  rw [hrx]
  dsimp only
  rw [excerptLoop_eq_enumFrom (atoi digits) (scanLines buf) 1]
  rfl

/-- Witness for C3: a formatter failure at line 42 of a sixty-line
buffer yields the windowed diagnostic. -/
theorem formatBuffer_line_window_witness :
    formatBuffer exSyntaxFS exBigBuf =
      .error ("failed to format template\n\n"
        ++ excerptWindow (atoi "42") (scanLines exBigBuf) ++ "\n: "
        ++ "42:13: expected declaration") :=
  formatBuffer_line_window exSyntaxFS exBigBuf "42:13: expected declaration" "42"
    rfl (by decide)

/-- C4 (amended): singleton filename derivation is a pure,
deterministic string function mapping `01_helpers.tmpl` to `helpers`,
`99_foo_bar.tmpl` to `foo_bar` and `nohelp.tmpl` to `nohelp`; it is
idempotent on derived names that carry no filename extension and no
leading digits-underscore run, but not in general — a second
application can strip a further extension or numbered prefix (see the
counterexample). -/
theorem singletonFileName_examples_and_idem (s : String)
    (h1 : filepathExt (singletonFileName s) = "")
    (h2 : rgxRemoveNumberedPrefixReplace (singletonFileName s) = singletonFileName s) :
    singletonFileName "01_helpers.tmpl" = "helpers"
      ∧ singletonFileName "99_foo_bar.tmpl" = "foo_bar"
      ∧ singletonFileName "nohelp.tmpl" = "nohelp"
      ∧ singletonFileName (singletonFileName s) = singletonFileName s := by
  refine ⟨by decide, by decide, by decide, ?_⟩
  conv_lhs => rw [singletonFileName]
  rw [h1]
  simp only [List.length_nil, Nat.sub_zero, List.take_length]
  exact h2

/-- Witness for C4 (amended): on `01_helpers.tmpl` the derived name
`helpers` is a fixed point of the derivation. -/
theorem singletonFileName_examples_and_idem_witness :
    singletonFileName "01_helpers.tmpl" = "helpers"
      ∧ singletonFileName "99_foo_bar.tmpl" = "foo_bar"
      ∧ singletonFileName "nohelp.tmpl" = "nohelp"
      ∧ singletonFileName (singletonFileName "01_helpers.tmpl")
          = singletonFileName "01_helpers.tmpl" :=
  singletonFileName_examples_and_idem "01_helpers.tmpl" (by decide) (by decide)

/-- Counterexample to C4 as stated: the derivation is not idempotent
on every name — `10_20_name.tmpl` derives `20_name`, and deriving
again strips the remaining numbered run, giving `name`. -/
theorem singletonFileName_not_idempotent :
    singletonFileName "10_20_name.tmpl" = "20_name"
      ∧ singletonFileName "20_name" = "name"
      ∧ ("20_name" : String) ≠ "name" := by decide

/-- C6 (amended): per-entity test output is written under the
test-marked suffix `_test.go` appended to the entity name, but
singleton test output is written under the plain `.go` suffix appended
to the derived template name — the source passes `.go`, not
`_test.go`, on the singleton test path. -/
theorem testOutput_suffixes (env : GoEnv) (st : State) (data : templateData) (b : String) :
    ((generateTestOutput env st data b).writes.map FileWrite.path = []
      ∨ (generateTestOutput env st data b).writes.map FileWrite.path
          = [filepathJoin st.Config.OutFolder (data.Table.Name ++ "_test.go")])
    ∧ (((generateSingletonTestOutput env st data b).writes.map FileWrite.path).all
        (fun p =>
          (st.SingletonTestTemplates.Templates.map
            (fun tpl =>
              filepathJoin st.Config.OutFolder (singletonFileName tpl ++ ".go"))).contains
            p) = true) := by
  constructor
  · exact executeTemplates_paths env _ b
  · rw [List.all_eq_true]
    intro p hp
    refine List.elem_iff.mpr ?_
    unfold generateSingletonTestOutput executeSingletonTemplates at hp
    split at hp
    · simp at hp
    · exact singletonLoop_paths env _ st.SingletonTestTemplates.Templates b p hp

/-- Counterexample to C6 as stated: a singleton test file is written
as `out/one.go` — the very name the normal singleton path produces —
with no test-marked suffix. -/
theorem singletonTest_suffix_counterexample :
    (generateSingletonTestOutput exEnv exState exData "").writes.map FileWrite.path
        = ["out/one.go"]
      ∧ (generateSingletonOutput exEnv exState exData "").writes.map FileWrite.path
          = ["out/one.go"]
      ∧ ("_test.go" : String).data.isSuffixOf ("out/one.go" : String).data = false := by
  decide

/-- C7: a successfully assembled per-entity buffer is exactly the
fixed two-line machine-generated banner (ending in a blank line), then
the package declaration line and a blank line, then the
formatted import block followed by a newline when the effective set
formats to a non-empty string (and nothing when it formats to the
empty string), then the rendered template bodies concatenated in the
configured template-list order. -/
theorem executeTemplates_layout (env : GoEnv) (e : executeTemplateData) (b : String)
    (hj : e.data.Table.IsJoinTable = false)
    (hok : ∀ n ∈ e.templates.Templates, ∃ output, e.templates.Template n e.data = .ok output) :
    (executeTemplates env e b).buf =
      noEditDisclaimer ++ ("package " ++ e.state.Config.PkgName ++ "\n\n")
        ++ (if (effImports e).Format.length > 0 then (effImports e).Format ++ "\n" else "")
        ++ concatAll (e.templates.Templates.map (renderedText e.templates.Template e.data)) := by
  unfold executeTemplates
  simp only [hj, Bool.false_eq_true, if_false]
  rw [runTemplates_all_ok e.templates.Template e.data e.templates.Templates _ hok]
  dsimp only
  rw [writeImports_shape, writePackageName_shape]
  unfold writeFileDisclaimer
  rw [str_empty_append]
  simp only [effImports, String.append_assoc]

/-- Witness for C7: the assembled buffer of a one-template request
has the banner, package line, import block and body in order. -/
theorem executeTemplates_layout_witness :
    (executeTemplates exEnv exOkCall "stale").buf =
      noEditDisclaimer ++ ("package " ++ exOkCall.state.Config.PkgName ++ "\n\n")
        ++ (if (effImports exOkCall).Format.length > 0 then
              (effImports exOkCall).Format ++ "\n"
            else "")
        ++ concatAll (exOkCall.templates.Templates.map
            (renderedText exOkCall.templates.Template exOkCall.data)) :=
  executeTemplates_layout exEnv exOkCall "stale" rfl
    (fun _ _ => ⟨"// body\n", rfl⟩)

/-- C8: when formatting fails with a message from which no line number
can be extracted, `writeFile` returns the generic wrapped error with
no line excerpt, and performs no file write. -/
theorem writeFile_generic_error (env : GoEnv) (outFolder fileName buf msg : String)
    (hfs : env.formatSource buf = .error msg)
    (hrx : rgxSyntaxErrorFind msg = none) :
    writeFile env outFolder fileName buf
      = ([], some ("failed to format template: " ++ msg)) := by
  unfold writeFile formatBuffer
  rw [hfs]
  dsimp only
  rw [hrx]

/-- Witness for C8: a position-free formatter failure yields the
generic wrapped error and no write. -/
theorem writeFile_generic_error_witness :
    writeFile exGenericErrEnv "out" "users.go" "bad buffer"
      = ([], some ("failed to format template: " ++ "format failure without position")) :=
  writeFile_generic_error exGenericErrEnv "out" "users.go" "bad buffer"
    "format failure without position" rfl (by decide)

/-- C10: type-based import augmentation is applied only on the
non-test per-entity path: the test output is unchanged under any
replacement of the type-based rules (the test call disables
augmentation), while the non-test generated buffer begins with the
header whose import block is the base set widened by
`AddTypeImports` over the entity's column types. -/
theorem typeImports_only_on_generated (env : GoEnv) (st : State) (data : templateData)
    (b : String) (m : importers.Map) :
    generateTestOutput env (withBasedOnType st m) data b = generateTestOutput env st data b
    ∧ (data.Table.IsJoinTable = false →
        ((noEditDisclaimer ++ ("package " ++ st.Config.PkgName ++ "\n\n")
            ++ (if (importers.AddTypeImports
                  ⟨st.Config.Imports.All.Standard, st.Config.Imports.All.ThirdParty⟩
                  st.Config.Imports.BasedOnType
                  (data.Table.Columns.map (fun ct => ct.Type'))).Format.length > 0 then
                (importers.AddTypeImports
                  ⟨st.Config.Imports.All.Standard, st.Config.Imports.All.ThirdParty⟩
                  st.Config.Imports.BasedOnType
                  (data.Table.Columns.map (fun ct => ct.Type'))).Format ++ "\n"
              else "")).data.isPrefixOf (generateOutput env st data b).buf.data) = true) := by
  constructor
  · rfl
  · intro hj
    refine List.isPrefixOf_iff_prefix.mpr ?_
    have h := executeTemplates_buf_head env
      { state := st
        data := data
        templates := st.Templates
        importSet := st.Config.Imports.All
        combineImportsOnType := true
        fileSuffix := ".go" } b hj
    rw [writeImports_shape, writePackageName_shape, writeFileDisclaimer_empty] at h
    exact h

/-- Witness for C10: with a `string -> strings` rule, the generated
(non-test) file for an entity with a string column starts with a
header containing the widened import block. -/
theorem typeImports_only_on_generated_witness :
    ((noEditDisclaimer ++ ("package " ++ exTypedState.Config.PkgName ++ "\n\n")
        ++ (if (importers.AddTypeImports
              ⟨exTypedState.Config.Imports.All.Standard,
                exTypedState.Config.Imports.All.ThirdParty⟩
              exTypedState.Config.Imports.BasedOnType
              (exData.Table.Columns.map (fun ct => ct.Type'))).Format.length > 0 then
            (importers.AddTypeImports
              ⟨exTypedState.Config.Imports.All.Standard,
                exTypedState.Config.Imports.All.ThirdParty⟩
              exTypedState.Config.Imports.BasedOnType
              (exData.Table.Columns.map (fun ct => ct.Type'))).Format ++ "\n"
          else "")).data.isPrefixOf (generateOutput exEnv exTypedState exData "").buf.data)
      = true :=
  (typeImports_only_on_generated exEnv exTypedState exData "" []).2 rfl

end boilingcore
